import Mathlib

/-!
# Verification of the stats normalization and widget pipeline

Shallow embedding of `src/components/stats-chart.tsx` and the two proxy
route handlers. JavaScript numbers are modelled as `JSNum`: either one of
the non-finite IEEE values (`nan`, `posInf`, `negInf`) or a finite value
represented exactly as a rational. Arbitrary JavaScript values are
modelled as `JSVal`; object property access and the `typeof`/`!== null`
tests used by the source are modelled explicitly.
-/

namespace Cook

/-- A JavaScript number: NaN, +Infinity, -Infinity, or a finite value
(finite doubles are embedded as exact rationals). -/
inductive JSNum where
  | nan
  | posInf
  | negInf
  | fin (q : ℚ)
deriving DecidableEq, Repr

/-- `Number.isFinite`. -/
def JSNum.isFinite : JSNum → Bool
  | .fin _ => true
  | _ => false

/-- The finite part of a number, `0` for the non-finite values. -/
def JSNum.toQ : JSNum → ℚ
  | .fin q => q
  | _ => 0

/-- JavaScript strict comparison `n > 0` (false on NaN). -/
def JSNum.gtZero : JSNum → Bool
  | .fin q => decide (0 < q)
  | .posInf => true
  | _ => false

/-- JavaScript strict inequality `n !== 0` (true on NaN and infinities). -/
def JSNum.neqZero : JSNum → Bool
  | .fin q => decide (q ≠ 0)
  | _ => true

/-- JavaScript division on numbers (finite operands divide exactly in the
rational model; the IEEE special cases are propagated). -/
def JSNum.div : JSNum → JSNum → JSNum
  | .nan, _ => .nan
  | _, .nan => .nan
  | .posInf, .posInf => .nan
  | .posInf, .negInf => .nan
  | .negInf, .posInf => .nan
  | .negInf, .negInf => .nan
  | .posInf, .fin q => if 0 ≤ q then .posInf else .negInf
  | .negInf, .fin q => if 0 ≤ q then .negInf else .posInf
  | .fin _, .posInf => .fin 0
  | .fin _, .negInf => .fin 0
  | .fin a, .fin b =>
      if b = 0 then
        if a = 0 then .nan else if 0 < a then .posInf else .negInf
      else .fin (a / b)

/-- A JavaScript value, as far as the normalizer can observe it: the
primitives, and objects as association lists of properties. -/
inductive JSVal where
  | undefined
  | null
  | boolean (b : Bool)
  | num (n : JSNum)
  | str (s : String)
  | obj (fields : List (String × JSVal))
deriving Repr

/-- `typeof v === "object" && v !== null` — the guard used by
`unwrapValPrev` (`typeof null` is `"object"`, but the source excludes it). -/
def JSVal.isNonNullObject : JSVal → Bool
  | .obj _ => true
  | _ => false

/-- Property access `v?.k` / `v.k`: the property's value on an object,
`undefined` on a missing property and on every primitive (optional
chaining guards the `null`/`undefined` cases in the source). -/
def JSVal.getField (v : JSVal) (k : String) : JSVal :=
  match v with
  | .obj fields =>
      match fields.lookup k with
      | some w => w
      | none => .undefined
  | _ => .undefined

/-- `const toNum = (v, fallback = 0) =>
  typeof v === "number" && Number.isFinite(v) ? v : fallback;` -/
def toNum (v : JSVal) (fallback : JSNum := .fin 0) : JSNum :=
  match v with
  | .num n => if n.isFinite then n else fallback
  | _ => fallback

/-- The `{ value, prev }` pair produced by `unwrapValPrev`. -/
structure ValPrev where
  value : JSNum
  prev : JSNum
deriving DecidableEq, Repr

/-- `unwrapValPrev`: accept `{value, prev}` or a bare number; an object
whose coerced pair is nonzero is returned directly, anything else falls
through to bare-number coercion with `prev = 0`. -/
def unwrapValPrev (maybe : JSVal) : ValPrev :=
  if maybe.isNonNullObject then
    let value := toNum (maybe.getField "value")
    let prev := toNum (maybe.getField "prev")
    if value.neqZero || prev.neqZero then ⟨value, prev⟩
    else ⟨toNum maybe, .fin 0⟩
  else ⟨toNum maybe, .fin 0⟩

/-- The normalized snapshot `StatsData`: the five metrics, each a
`{value, prev}` pair. -/
structure StatsData where
  pageviews : ValPrev
  visitors : ValPrev
  visits : ValPrev
  bounces : ValPrev
  totaltime : ValPrev
deriving DecidableEq, Repr

/-- `normalizeToStatsData`: unwrap the five metric keys, then recompute
`totaltime` from total seconds to average minutes per visit. -/
def normalizeToStatsData (raw : JSVal) : StatsData :=
  let pageviews := unwrapValPrev (raw.getField "pageviews")
  let visitors := unwrapValPrev (raw.getField "visitors")
  let visits := unwrapValPrev (raw.getField "visits")
  let bounces := unwrapValPrev (raw.getField "bounces")
  let totaltimeRaw := unwrapValPrev (raw.getField "totaltime")
  let visitsCurr := toNum (.num visits.value)
  let visitsPrev := toNum (.num visits.prev)
  let totalSecondsCurr := toNum (.num totaltimeRaw.value)
  let totalSecondsPrev := toNum (.num totaltimeRaw.prev)
  let avgMinutesCurr :=
    if visitsCurr.gtZero then (totalSecondsCurr.div visitsCurr).div (.fin 60)
    else .fin 0
  let avgMinutesPrev :=
    if visitsPrev.gtZero then (totalSecondsPrev.div visitsPrev).div (.fin 60)
    else .fin 0
  { pageviews := pageviews
    visitors := visitors
    visits := visits
    bounces := bounces
    totaltime := ⟨avgMinutesCurr, avgMinutesPrev⟩ }

/-- The all-zero fallback snapshot returned on every failure path. -/
def zeroStats : StatsData :=
  { pageviews := ⟨.fin 0, .fin 0⟩
    visitors := ⟨.fin 0, .fin 0⟩
    visits := ⟨.fin 0, .fin 0⟩
    bounces := ⟨.fin 0, .fin 0⟩
    totaltime := ⟨.fin 0, .fin 0⟩ }

/-! ## Widget load lifecycle (`fetchStats` and the `useEffect` body) -/

/-- The outcome of the single `fetch` issued on activation:
a 2xx response whose body parsed to the JSON value `raw`,
a non-2xx response (`!res.ok`), or a throw from `fetch`/`res.json`. -/
inductive FetchOutcome where
  | success (raw : JSVal)
  | httpError (status : Nat)
  | threw
deriving Repr

/-- Whether the fetch outcome is a failure (non-2xx status, or a throw). -/
def FetchOutcome.isFailure : FetchOutcome → Bool
  | .success _ => false
  | _ => true

/-- `fetchStats`: on `!res.ok` it logs and returns the zeroed fallback;
on success it normalizes the parsed body; a throw from `fetch` or
`res.json` propagates (modelled as `Except.error`). -/
def fetchStats : FetchOutcome → Except Unit StatsData
  | .httpError _ => .ok zeroStats
  | .success raw => .ok (normalizeToStatsData raw)
  | .threw => .error ()

/-- The widget's render state: `stats = null` renders the spinner
(`loading`), a non-null snapshot renders the chart (`ready`). -/
inductive WidgetState where
  | loading
  | ready (snapshot : StatsData)
deriving DecidableEq, Repr

/-- The `load` body of the effect: the list of `setStats` invocations it
performs, given the value of the `mounted` flag at the moment the fetch
settles. `try { const s = await fetchStats(); if (mounted) setStats(s) }
catch { if (mounted) setStats(zero) }`. -/
def loadSetterCalls (mounted : Bool) (o : FetchOutcome) : List StatsData :=
  match fetchStats o with
  | .ok s => if mounted then [s] else []
  | .error _ => if mounted then [zeroStats] else []

/-- Fold a sequence of `setStats` calls over a widget state. -/
def applySetters (init : WidgetState) : List StatsData → WidgetState
  | [] => init
  | s :: rest => applySetters (.ready s) rest

/-- The widget state after the fetch settles, starting from `loading`. -/
def widgetStateAfterLoad (mounted : Bool) (o : FetchOutcome) : WidgetState :=
  applySetters .loading (loadSetterCalls mounted o)

/-! ## Rendering (`chartData`, the spinner, the centered label) -/

/-- One slice of the pie chart: the `type` tag, the magnitude stored
under the `visitors` data key, and the fill color token. -/
structure ChartSlice where
  type : String
  visitors : JSNum
  fill : String
deriving DecidableEq, Repr

/-- The `chartData` memo: five slices derived from the snapshot (the
source's `?? 0` on each `.value` is the identity, the fields being
numbers and never nullish). -/
def chartData (stats : StatsData) : List ChartSlice :=
  [ ⟨"pageviews", stats.pageviews.value, "var(--color-pageviews)"⟩,
    ⟨"visitors", stats.visitors.value, "var(--color-visitors)"⟩,
    ⟨"visits", stats.visits.value, "var(--color-visits)"⟩,
    ⟨"bounces", stats.bounces.value, "var(--color-bounces)"⟩,
    ⟨"totaltime", stats.totaltime.value, "var(--color-totaltime)"⟩ ]

/-- What the component renders: the busy spinner while `stats` is null,
otherwise the ring chart with its centered number and static caption. -/
inductive RenderOutput where
  | spinner
  | chart (data : List ChartSlice) (centerValue : JSNum) (caption : String)
deriving DecidableEq, Repr

/-- The number shown in the chart's centered label, when a chart is shown. -/
def RenderOutput.centerValue : RenderOutput → Option JSNum
  | .spinner => none
  | .chart _ v _ => some v

/-- The static caption beneath the centered number, when a chart is shown. -/
def RenderOutput.centerCaption : RenderOutput → Option String
  | .spinner => none
  | .chart _ _ c => some c

/-- The component's render function: `if (!stats) return spinner;` then
the pie chart whose `Label` shows `visitsValue = stats.visits?.value ?? 0`
with the "Visits" caption. -/
def render : WidgetState → RenderOutput
  | .loading => .spinner
  | .ready stats => .chart (chartData stats) stats.visits.value "Visits"

/-! ## Proxy route handlers -/

/-- The `{ ok, data, status, error }` record destructured from the
analytics client's reply. -/
structure ClientResult where
  ok : Bool
  data : JSVal
  status : Nat
  error : JSVal

/-- How the awaited client call settles: a result record, or a throw. -/
inductive ClientOutcome where
  | result (r : ClientResult)
  | threw

/-- An HTTP response: the value serialized by `JSON.stringify` as the
body, and the status code. -/
structure HttpResponse where
  bodyJson : JSVal
  status : Nat

/-- The error envelope of the stats handler. -/
def statsErrorBody : JSVal :=
  .obj [("error", .str "Failed to fetch website metrics")]

/-- The error envelope of the pageviews handler. -/
def pageviewsErrorBody : JSVal :=
  .obj [("error", .str "Failed to fetch website pageviews")]

/-- The `GET` handler of the stats route: relays `(200, data)` when
`ok`, `(status, {error})` when `!ok`, and `(500, {error})` on a throw. -/
def statsHandlerGET : ClientOutcome → HttpResponse
  | .result r => if !r.ok then ⟨statsErrorBody, r.status⟩ else ⟨r.data, 200⟩
  | .threw => ⟨statsErrorBody, 500⟩

/-- The `GET` handler of the pageviews route: same shape as the stats
handler, with its own error message. -/
def pageviewsHandlerGET : ClientOutcome → HttpResponse
  | .result r => if !r.ok then ⟨pageviewsErrorBody, r.status⟩ else ⟨r.data, 200⟩
  | .threw => ⟨pageviewsErrorBody, 500⟩

/-- Direct field-by-field coercion of an object's `value`/`prev`: the
refinement target `unwrapValPrev` is compared against on object inputs. -/
def objDirectPair (maybe : JSVal) : ValPrev :=
  ⟨toNum (maybe.getField "value"), toNum (maybe.getField "prev")⟩

/-- A concrete snapshot with distinct `visits` and `pageviews` figures,
used to separate the centered label from the pageviews metric. -/
def sampleSnapshot : StatsData :=
  { pageviews := ⟨.fin 7, .fin 0⟩
    visitors := ⟨.fin 1, .fin 0⟩
    visits := ⟨.fin 3, .fin 0⟩
    bounces := ⟨.fin 1, .fin 0⟩
    totaltime := ⟨.fin 1, .fin 0⟩ }

/-! ## Overflow-aware division

`JSNum.div` keeps finite quotients exact, but IEEE double division
saturates to an infinity once the result leaves the representable range.
For claims about finiteness of the program's outputs, the divisions of
the average-minutes computation are re-modelled with that saturation. -/

/-- The smallest magnitude at which IEEE round-to-nearest-even sends a
double arithmetic result to infinity: `2^1024 - 2^970` (the largest
finite double plus half an ulp). -/
def overflowThreshold : ℚ := 2 ^ 1024 - 2 ^ 970

/-- IEEE overflow saturation of a double arithmetic result: a finite
value at or beyond the rounding threshold becomes the corresponding
infinity; everything else is unchanged. (Rounding of in-range results is
not modelled.) -/
def JSNum.saturate : JSNum → JSNum
  | .fin q =>
      if overflowThreshold ≤ q then .posInf
      else if q ≤ -overflowThreshold then .negInf
      else .fin q
  | n => n

/-- JavaScript division with IEEE double overflow: the exact quotient of
the rational model, saturated to an infinity when it leaves the double
range. -/
def JSNum.divIEEE (a b : JSNum) : JSNum := (a.div b).saturate

/-- `normalizeToStatsData` under overflow-aware division: identical to
`normalizeToStatsData` except that the two divisions of the
average-minutes computation saturate like IEEE doubles. -/
def normalizeToStatsDataIEEE (raw : JSVal) : StatsData :=
  let pageviews := unwrapValPrev (raw.getField "pageviews")
  let visitors := unwrapValPrev (raw.getField "visitors")
  let visits := unwrapValPrev (raw.getField "visits")
  let bounces := unwrapValPrev (raw.getField "bounces")
  let totaltimeRaw := unwrapValPrev (raw.getField "totaltime")
  let visitsCurr := toNum (.num visits.value)
  let visitsPrev := toNum (.num visits.prev)
  let totalSecondsCurr := toNum (.num totaltimeRaw.value)
  let totalSecondsPrev := toNum (.num totaltimeRaw.prev)
  let avgMinutesCurr :=
    if visitsCurr.gtZero then (totalSecondsCurr.divIEEE visitsCurr).divIEEE (.fin 60)
    else .fin 0
  let avgMinutesPrev :=
    if visitsPrev.gtZero then (totalSecondsPrev.divIEEE visitsPrev).divIEEE (.fin 60)
    else .fin 0
  { pageviews := pageviews
    visitors := visitors
    visits := visits
    bounces := bounces
    totaltime := ⟨avgMinutesCurr, avgMinutesPrev⟩ }

/-! ## Helper lemmas -/

/-- A finite `JSNum` carries a rational. -/
theorem JSNum.eq_fin_of_isFinite {n : JSNum} (h : n.isFinite = true) :
    ∃ q : ℚ, n = .fin q := by
  cases n with
  | fin q => exact ⟨q, rfl⟩
  | nan => simp [JSNum.isFinite] at h
  | posInf => simp [JSNum.isFinite] at h
  | negInf => simp [JSNum.isFinite] at h

/-- `toNum` always produces a finite number when its fallback is finite. -/
theorem toNum_isFinite (v : JSVal) (fb : ℚ) :
    (toNum v (.fin fb)).isFinite = true := by
  cases v with
  | num n => cases n <;> rfl
  | undefined => rfl
  | null => rfl
  | boolean b => rfl
  | str s => rfl
  | obj fields => rfl

/-- `toNum` is the identity on an already-finite number. -/
theorem toNum_num_of_isFinite {n : JSNum} (h : n.isFinite = true) :
    toNum (.num n) = n := by
  simp [toNum, h]

/-- Both components of an `unwrapValPrev` result are finite rationals. -/
theorem unwrapValPrev_finite (m : JSVal) :
    ∃ a b : ℚ, unwrapValPrev m = ⟨.fin a, .fin b⟩ := by
  unfold unwrapValPrev
  split
  · dsimp only
    split
    · obtain ⟨a, ha⟩ :=
        JSNum.eq_fin_of_isFinite (toNum_isFinite (m.getField "value") 0)
      obtain ⟨b, hb⟩ :=
        JSNum.eq_fin_of_isFinite (toNum_isFinite (m.getField "prev") 0)
      exact ⟨a, b, by rw [ha, hb]⟩
    · obtain ⟨a, ha⟩ := JSNum.eq_fin_of_isFinite (toNum_isFinite m 0)
      exact ⟨a, 0, by rw [ha]⟩
  · obtain ⟨a, ha⟩ := JSNum.eq_fin_of_isFinite (toNum_isFinite m 0)
    exact ⟨a, 0, by rw [ha]⟩

/-- The average-minutes computation on finite operands, expressed over
the carried rationals. -/
theorem avgMinutes_spec (tsec vis : ℚ) :
    (if (JSNum.fin vis).gtZero
      then ((JSNum.fin tsec).div (.fin vis)).div (.fin 60)
      else .fin 0)
      = if 0 < vis then JSNum.fin (tsec / vis / 60) else .fin 0 := by
  by_cases h : 0 < vis
  · simp [JSNum.gtZero, JSNum.div, h, h.ne']
  · simp [JSNum.gtZero, h]

/-- Characterization of the normalized `totaltime` pair: for every raw
input, each component is the guarded average-minutes figure computed from
the resolved `totaltime` seconds and the resolved `visits` count. -/
theorem normalize_totaltime (raw : JSVal) :
    (normalizeToStatsData raw).totaltime =
      ⟨if 0 < (unwrapValPrev (raw.getField "visits")).value.toQ
        then .fin ((unwrapValPrev (raw.getField "totaltime")).value.toQ
              / (unwrapValPrev (raw.getField "visits")).value.toQ / 60)
        else .fin 0,
       if 0 < (unwrapValPrev (raw.getField "visits")).prev.toQ
        then .fin ((unwrapValPrev (raw.getField "totaltime")).prev.toQ
              / (unwrapValPrev (raw.getField "visits")).prev.toQ / 60)
        else .fin 0⟩ := by
  obtain ⟨a, b, hv⟩ := unwrapValPrev_finite (raw.getField "visits")
  obtain ⟨c, d, ht⟩ := unwrapValPrev_finite (raw.getField "totaltime")
  simp [normalizeToStatsData, hv, ht, toNum, JSNum.isFinite, JSNum.toQ,
    avgMinutes_spec]

/-- Saturation never introduces NaN. -/
theorem saturate_ne_nan {n : JSNum} (h : n ≠ .nan) : n.saturate ≠ .nan := by
  cases n with
  | nan => exact absurd rfl h
  | posInf => simp [JSNum.saturate]
  | negInf => simp [JSNum.saturate]
  | fin q =>
      simp only [JSNum.saturate]
      split
      · simp
      · split <;> simp

/-- Overflow-aware division by a positive finite number never produces
NaN from a non-NaN dividend. -/
theorem divIEEE_pos_ne_nan {x : JSNum} (hx : x ≠ .nan) {b : ℚ} (hb : 0 < b) :
    x.divIEEE (.fin b) ≠ .nan := by
  refine saturate_ne_nan ?_
  cases x with
  | nan => exact absurd rfl hx
  | posInf => simp [JSNum.div, hb.le]
  | negInf => simp [JSNum.div, hb.le]
  | fin a => simp [JSNum.div, hb.ne']

/-- Characterization of the overflow-aware normalized `totaltime` pair,
expressed over the carried rationals of the resolved metrics. -/
theorem normalizeIEEE_totaltime (raw : JSVal) :
    (normalizeToStatsDataIEEE raw).totaltime =
      ⟨if 0 < (unwrapValPrev (raw.getField "visits")).value.toQ
        then ((JSNum.fin (unwrapValPrev (raw.getField "totaltime")).value.toQ).divIEEE
              (.fin (unwrapValPrev (raw.getField "visits")).value.toQ)).divIEEE (.fin 60)
        else .fin 0,
       if 0 < (unwrapValPrev (raw.getField "visits")).prev.toQ
        then ((JSNum.fin (unwrapValPrev (raw.getField "totaltime")).prev.toQ).divIEEE
              (.fin (unwrapValPrev (raw.getField "visits")).prev.toQ)).divIEEE (.fin 60)
        else .fin 0⟩ := by
  obtain ⟨a, b, hv⟩ := unwrapValPrev_finite (raw.getField "visits")
  obtain ⟨c, d, ht⟩ := unwrapValPrev_finite (raw.getField "totaltime")
  simp [normalizeToStatsDataIEEE, hv, ht, toNum, JSNum.isFinite, JSNum.toQ,
    JSNum.gtZero]

/-! ## Claim theorems -/

/-- C2: for every raw input, the normalized `totaltime.value` equals
`totaltimeSeconds.value / visits.value / 60` when the resolved
`visits.value` is positive and `0` otherwise, and symmetrically for
`prev`; the worked example `totaltime {1200, 600}` with `visits {10, 5}`
normalizes to `{2, 2}`, and a zero visit count forces output `0`
regardless of the input seconds. -/
theorem claim2_totaltime (raw : JSVal) :
    ((normalizeToStatsData raw).totaltime.value =
      if 0 < (unwrapValPrev (raw.getField "visits")).value.toQ
      then .fin ((unwrapValPrev (raw.getField "totaltime")).value.toQ
            / (unwrapValPrev (raw.getField "visits")).value.toQ / 60)
      else .fin 0) ∧
    ((normalizeToStatsData raw).totaltime.prev =
      if 0 < (unwrapValPrev (raw.getField "visits")).prev.toQ
      then .fin ((unwrapValPrev (raw.getField "totaltime")).prev.toQ
            / (unwrapValPrev (raw.getField "visits")).prev.toQ / 60)
      else .fin 0) ∧
    (normalizeToStatsData (.obj
        [("totaltime", .obj [("value", .num (.fin 1200)), ("prev", .num (.fin 600))]),
         ("visits", .obj [("value", .num (.fin 10)), ("prev", .num (.fin 5))])])).totaltime
      = ⟨.fin 2, .fin 2⟩ ∧
    (normalizeToStatsData (.obj
        [("totaltime", .num (.fin 999)), ("visits", .num (.fin 0))])).totaltime.value
      = .fin 0 := by
  refine ⟨?_, ?_, ?_, rfl⟩
  · rw [normalize_totaltime raw]
  · rw [normalize_totaltime raw]
  · rw [normalize_totaltime]
    have hv : unwrapValPrev ((JSVal.obj
        [("totaltime", .obj [("value", .num (.fin 1200)), ("prev", .num (.fin 600))]),
         ("visits", .obj [("value", .num (.fin 10)), ("prev", .num (.fin 5))])]).getField
          "visits") = ⟨.fin 10, .fin 5⟩ := by decide
    have ht : unwrapValPrev ((JSVal.obj
        [("totaltime", .obj [("value", .num (.fin 1200)), ("prev", .num (.fin 600))]),
         ("visits", .obj [("value", .num (.fin 10)), ("prev", .num (.fin 5))])]).getField
          "totaltime") = ⟨.fin 1200, .fin 600⟩ := by decide
    rw [hv, ht]
    norm_num [JSNum.toQ]

/-- C3 counterexample: under overflow-aware division the normalized
`totaltime.value` is not finite on a payload of representable doubles —
`2^1023` total seconds over `0.5` visits divides to `2^1024`, which IEEE
double division saturates to `Infinity`. -/
theorem claim3_counterexample :
    (normalizeToStatsDataIEEE (.obj
        [("totaltime", .num (.fin (2 ^ 1023))),
         ("visits", .num (.fin (1 / 2)))])).totaltime.value = .posInf ∧
    (normalizeToStatsDataIEEE (.obj
        [("totaltime", .num (.fin (2 ^ 1023))),
         ("visits", .num (.fin (1 / 2)))])).totaltime.value.isFinite = false := by
  have h : (normalizeToStatsDataIEEE (.obj
      [("totaltime", .num (.fin (2 ^ 1023))),
       ("visits", .num (.fin (1 / 2)))])).totaltime.value = .posInf := by
    have hv : unwrapValPrev ((JSVal.obj
        [("totaltime", .num (.fin (2 ^ 1023))),
         ("visits", .num (.fin (1 / 2)))]).getField "visits")
        = ⟨.fin (1 / 2), .fin 0⟩ := rfl
    have ht : unwrapValPrev ((JSVal.obj
        [("totaltime", .num (.fin (2 ^ 1023))),
         ("visits", .num (.fin (1 / 2)))]).getField "totaltime")
        = ⟨.fin (2 ^ 1023), .fin 0⟩ := rfl
    rw [normalizeIEEE_totaltime, hv, ht]
    have h12 : (0 : ℚ) < 1 / 2 := by norm_num
    have hq : ((2 : ℚ) ^ 1023) / (1 / 2) = 2 ^ 1024 := by
      rw [div_div_eq_mul_div, div_one, pow_succ]
      ring
    have hover : overflowThreshold ≤ ((2 : ℚ) ^ 1023) / (1 / 2) := by
      rw [hq, overflowThreshold]
      have : (0 : ℚ) < 2 ^ 970 := by positivity
      linarith
    have hdiv1 : (JSNum.fin (2 ^ 1023)).divIEEE (.fin (1 / 2)) = .posInf := by
      rw [JSNum.divIEEE]
      have : (JSNum.fin (2 ^ 1023)).div (.fin (1 / 2))
          = .fin (((2 : ℚ) ^ 1023) / (1 / 2)) := by
        simp [JSNum.div, h12.ne']
      rw [this, JSNum.saturate, if_pos hover]
    have hdiv2 : (JSNum.posInf).divIEEE (.fin 60) = .posInf := by
      rw [JSNum.divIEEE]
      have : (JSNum.posInf).div (.fin 60) = .posInf := by
        simp [JSNum.div]
      rw [this]
      rfl
    show (if (0 : ℚ) < 1 / 2
        then ((JSNum.fin (2 ^ 1023)).divIEEE (.fin (1 / 2))).divIEEE (.fin 60)
        else .fin 0) = .posInf
    rw [if_pos h12, hdiv1, hdiv2]
  exact ⟨h, by rw [h]; rfl⟩

/-- C3 (amended): for every input payload — the empty object and `null`
included — the overflow-aware normalizer returns a snapshot with all five
metrics present; the `pageviews`, `visitors`, `visits` and `bounces`
components are always finite, the `totaltime` components are never NaN
(they can only be infinite, when the seconds-per-visit division
overflows the double range), and the degenerate payloads normalize to
the all-zero snapshot. -/
theorem claim3_amended (raw : JSVal) :
    (normalizeToStatsDataIEEE raw).pageviews.value.isFinite = true ∧
    (normalizeToStatsDataIEEE raw).pageviews.prev.isFinite = true ∧
    (normalizeToStatsDataIEEE raw).visitors.value.isFinite = true ∧
    (normalizeToStatsDataIEEE raw).visitors.prev.isFinite = true ∧
    (normalizeToStatsDataIEEE raw).visits.value.isFinite = true ∧
    (normalizeToStatsDataIEEE raw).visits.prev.isFinite = true ∧
    (normalizeToStatsDataIEEE raw).bounces.value.isFinite = true ∧
    (normalizeToStatsDataIEEE raw).bounces.prev.isFinite = true ∧
    (normalizeToStatsDataIEEE raw).totaltime.value ≠ .nan ∧
    (normalizeToStatsDataIEEE raw).totaltime.prev ≠ .nan ∧
    normalizeToStatsDataIEEE .null = zeroStats ∧
    normalizeToStatsDataIEEE (.obj []) = zeroStats := by
  have hp : (normalizeToStatsDataIEEE raw).pageviews
      = unwrapValPrev (raw.getField "pageviews") := rfl
  have hvr : (normalizeToStatsDataIEEE raw).visitors
      = unwrapValPrev (raw.getField "visitors") := rfl
  have hv : (normalizeToStatsDataIEEE raw).visits
      = unwrapValPrev (raw.getField "visits") := rfl
  have hb : (normalizeToStatsDataIEEE raw).bounces
      = unwrapValPrev (raw.getField "bounces") := rfl
  obtain ⟨a1, b1, h1⟩ := unwrapValPrev_finite (raw.getField "pageviews")
  obtain ⟨a2, b2, h2⟩ := unwrapValPrev_finite (raw.getField "visitors")
  obtain ⟨a3, b3, h3⟩ := unwrapValPrev_finite (raw.getField "visits")
  obtain ⟨a4, b4, h4⟩ := unwrapValPrev_finite (raw.getField "bounces")
  refine ⟨?_, ?_, ?_, ?_, ?_, ?_, ?_, ?_, ?_, ?_, rfl, rfl⟩
  · rw [hp, h1]; rfl
  · rw [hp, h1]; rfl
  · rw [hvr, h2]; rfl
  · rw [hvr, h2]; rfl
  · rw [hv, h3]; rfl
  · rw [hv, h3]; rfl
  · rw [hb, h4]; rfl
  · rw [hb, h4]; rfl
  · rw [normalizeIEEE_totaltime raw]
    dsimp only
    split
    case isTrue hpos =>
      exact divIEEE_pos_ne_nan
        (divIEEE_pos_ne_nan (by simp) hpos) (by norm_num)
    case isFalse hpos => simp
  · rw [normalizeIEEE_totaltime raw]
    dsimp only
    split
    case isTrue hpos =>
      exact divIEEE_pos_ne_nan
        (divIEEE_pos_ne_nan (by simp) hpos) (by norm_num)
    case isFalse hpos => simp

/-- C5: every failed fetch outcome (non-2xx status, or a throw from
`fetch`/`res.json`) leaves the still-mounted widget in `Ready` with the
all-zero snapshot; the load is total (no error escapes) and the state is
never left at `Loading` once the fetch settles. -/
theorem claim5_failure_ready (o : FetchOutcome) (h : o.isFailure = true) :
    widgetStateAfterLoad true o = .ready zeroStats := by
  cases o with
  | success raw => simp [FetchOutcome.isFailure] at h
  | httpError s => rfl
  | threw => rfl

/-- Witness for C5 at the thrown-fetch outcome. -/
theorem claim5_witness :
    FetchOutcome.isFailure .threw = true ∧
      widgetStateAfterLoad true .threw = .ready zeroStats :=
  ⟨rfl, claim5_failure_ready .threw rfl⟩

/-- C6: when the widget was deactivated before the fetch settled
(`mounted = false`), the state setter is invoked zero times on every
outcome — success and failure alike — and the state is unchanged. -/
theorem claim6_unmounted (o : FetchOutcome) :
    loadSetterCalls false o = [] ∧ widgetStateAfterLoad false o = .loading := by
  cases o with
  | success raw => exact ⟨rfl, rfl⟩
  | httpError s => exact ⟨rfl, rfl⟩
  | threw => exact ⟨rfl, rfl⟩

/-- C7: in the `Ready` state the centered label shows exactly
`snapshot.visits.value` with the static "Visits" caption, and on a
snapshot where the two differ the label is not `pageviews.value`. -/
theorem claim7_center_label (s : StatsData) :
    (render (.ready s)).centerValue = some s.visits.value ∧
    (render (.ready s)).centerCaption = some "Visits" ∧
    (render (.ready sampleSnapshot)).centerValue
      ≠ some sampleSnapshot.pageviews.value := by
  refine ⟨rfl, rfl, ?_⟩
  have h1 : (render (.ready sampleSnapshot)).centerValue = some (.fin 3) := rfl
  have h2 : sampleSnapshot.pageviews.value = .fin 7 := rfl
  rw [h1, h2]
  norm_num

/-- C8: each proxy handler relays `(200, data)` when the client reports
`ok = true`, `(upstream status, {error: message})` when `ok = false`, and
`(500, {error: message})` when the awaited call throws. -/
theorem claim8_proxy_handlers (data err : JSVal) (status : Nat) :
    statsHandlerGET (.result ⟨true, data, status, err⟩)
        = ⟨data, 200⟩ ∧
    statsHandlerGET (.result ⟨false, data, status, err⟩)
        = ⟨statsErrorBody, status⟩ ∧
    statsHandlerGET .threw = ⟨statsErrorBody, 500⟩ ∧
    pageviewsHandlerGET (.result ⟨true, data, status, err⟩)
        = ⟨data, 200⟩ ∧
    pageviewsHandlerGET (.result ⟨false, data, status, err⟩)
        = ⟨pageviewsErrorBody, status⟩ ∧
    pageviewsHandlerGET .threw = ⟨pageviewsErrorBody, 500⟩ :=
  ⟨rfl, rfl, rfl, rfl, rfl, rfl⟩

/-- C1 counterexample: a negative number supplied for `pageviews` is not
coerced to `0` — `toNum` only replaces non-finite numbers, so `-5`
survives into the normalized snapshot. -/
theorem claim1_counterexample :
    (normalizeToStatsData (.obj [("pageviews", .num (.fin (-5)))])).pageviews.value
        ≠ .fin 0 ∧
    (normalizeToStatsData (.obj [("pageviews", .num (.fin (-5)))])).pageviews.value
        = .fin (-5) := by
  have h : (normalizeToStatsData
      (.obj [("pageviews", .num (.fin (-5)))])).pageviews.value = .fin (-5) := rfl
  refine ⟨?_, h⟩
  rw [h]
  norm_num

/-- C1 (amended): `NaN` and `Infinity` numeric inputs are coerced to `0`
before any arithmetic — bare or as an object's `value` field — but a
negative finite number is preserved unchanged, not coerced to `0`. -/
theorem claim1_amended (q : ℚ) :
    (normalizeToStatsData (.obj [("pageviews", .num (.fin q))])).pageviews
        = ⟨.fin q, .fin 0⟩ ∧
    (normalizeToStatsData (.obj [("pageviews", .num .nan)])).pageviews
        = ⟨.fin 0, .fin 0⟩ ∧
    (normalizeToStatsData (.obj [("pageviews", .num .posInf)])).pageviews
        = ⟨.fin 0, .fin 0⟩ ∧
    (normalizeToStatsData (.obj [("pageviews", .num .negInf)])).pageviews
        = ⟨.fin 0, .fin 0⟩ ∧
    unwrapValPrev (.obj [("value", .num .nan), ("prev", .num (.fin q))])
        = ⟨.fin 0, .fin q⟩ ∧
    unwrapValPrev (.obj [("value", .num (.fin q)), ("prev", .num (.fin 1))])
        = ⟨.fin q, .fin 1⟩ := by
  refine ⟨rfl, rfl, rfl, rfl, ?_, ?_⟩
  · by_cases hq : q = 0
    · subst hq; rfl
    · simp [unwrapValPrev, toNum, JSVal.getField, JSVal.isNonNullObject,
        JSNum.neqZero, JSNum.isFinite, hq, List.lookup]
  · by_cases hq : q = 0
    · subst hq; rfl
    · simp [unwrapValPrev, toNum, JSVal.getField, JSVal.isNonNullObject,
        JSNum.neqZero, JSNum.isFinite, hq, List.lookup]

/-- C4 counterexample: `totaltime` supplied as the bare number `120`
(with no positive visit count) does not normalize to `{120, 0}` — the
average-minutes recomputation replaces it with `{0, 0}`. -/
theorem claim4_counterexample :
    (normalizeToStatsData (.obj [("totaltime", .num (.fin 120))])).totaltime
        ≠ ⟨.fin 120, .fin 0⟩ ∧
    (normalizeToStatsData (.obj [("totaltime", .num (.fin 120))])).totaltime
        = ⟨.fin 0, .fin 0⟩ := by
  have h : (normalizeToStatsData
      (.obj [("totaltime", .num (.fin 120))])).totaltime = ⟨.fin 0, .fin 0⟩ := rfl
  refine ⟨?_, h⟩
  rw [h]
  norm_num

/-- C4 (amended): a bare finite number `n` resolves to `{value: n,
prev: 0}` under `unwrapValPrev`, and for each of the four metrics other
than `totaltime` that is also the normalized snapshot entry (`totaltime`
is subsequently recomputed into average minutes per visit); e.g.
`pageviews: 42` normalizes to `{42, 0}`. -/
theorem claim4_amended (q : ℚ) :
    unwrapValPrev (.num (.fin q)) = ⟨.fin q, .fin 0⟩ ∧
    (normalizeToStatsData (.obj [("pageviews", .num (.fin q))])).pageviews
        = ⟨.fin q, .fin 0⟩ ∧
    (normalizeToStatsData (.obj [("visitors", .num (.fin q))])).visitors
        = ⟨.fin q, .fin 0⟩ ∧
    (normalizeToStatsData (.obj [("visits", .num (.fin q))])).visits
        = ⟨.fin q, .fin 0⟩ ∧
    (normalizeToStatsData (.obj [("bounces", .num (.fin q))])).bounces
        = ⟨.fin q, .fin 0⟩ ∧
    (normalizeToStatsData (.obj [("pageviews", .num (.fin 42))])).pageviews
        = ⟨.fin 42, .fin 0⟩ :=
  ⟨rfl, rfl, rfl, rfl, rfl, rfl⟩

/-- C9: on every object-shaped input, `unwrapValPrev` coincides with the
direct field-by-field coercion `objDirectPair`: the bare-number
fall-through taken when both fields coerce to `0` also yields `{0, 0}`
(coercing an object as a bare number gives `0`), and an object whose
`value` coerces to `0` keeps a nonzero `prev`. -/
theorem claim9_object_refinement (fields : List (String × JSVal)) :
    unwrapValPrev (.obj fields) = objDirectPair (.obj fields) ∧
    toNum (.obj fields) = .fin 0 ∧
    unwrapValPrev (.obj [("value", .num (.fin 0)), ("prev", .num (.fin 7))])
        = ⟨.fin 0, .fin 7⟩ := by
  refine ⟨?_, rfl, by decide⟩
  unfold unwrapValPrev objDirectPair
  split
  case isFalse hfalse => exact absurd rfl hfalse
  dsimp only
  split
  · rfl
  · rename_i hcond
    obtain ⟨a, ha⟩ := JSNum.eq_fin_of_isFinite
      (toNum_isFinite ((JSVal.obj fields).getField "value") 0)
    obtain ⟨b, hb⟩ := JSNum.eq_fin_of_isFinite
      (toNum_isFinite ((JSVal.obj fields).getField "prev") 0)
    rw [ha, hb] at hcond ⊢
    simp [JSNum.neqZero] at hcond
    obtain ⟨ha0, hb0⟩ := hcond
    simp [toNum, ha0, hb0]

/-- C10: when the raw `visits` metric is a bare number or absent, its
resolved `prev` is `0`, so the previous-period average-minutes guard
takes its zero branch and the normalized `totaltime.prev` is `0`
regardless of the raw `totaltime` input. -/
theorem claim10_prev_zero (raw : JSVal)
    (h : (∃ n, raw.getField "visits" = .num n) ∨ raw.getField "visits" = .undefined) :
    (unwrapValPrev (raw.getField "visits")).prev = .fin 0 ∧
    (normalizeToStatsData raw).totaltime.prev = .fin 0 := by
  have hprev : (unwrapValPrev (raw.getField "visits")).prev = .fin 0 := by
    rcases h with ⟨n, hn⟩ | hn
    · rw [hn]; rfl
    · rw [hn]; rfl
  refine ⟨hprev, ?_⟩
  rw [normalize_totaltime raw]
  simp [hprev, JSNum.toQ]

/-- Witness for C10: `visits` absent entirely, a raw `totaltime` of 600
seconds, and the normalized `totaltime.prev` is `0`. -/
theorem claim10_witness :
    ((∃ n, (JSVal.obj [("totaltime", .num (.fin 600))]).getField "visits" = .num n) ∨
      (JSVal.obj [("totaltime", .num (.fin 600))]).getField "visits" = .undefined) ∧
    (normalizeToStatsData (.obj [("totaltime", .num (.fin 600))])).totaltime.prev
        = .fin 0 :=
  ⟨Or.inr rfl, (claim10_prev_zero (.obj [("totaltime", .num (.fin 600))])
      (Or.inr rfl)).2⟩

end Cook
